import Mathlib

/-!
Verification of the libobs data-object wrapper (`src/data.rs`).

The repository is a thin safe wrapper over the native libobs C library.
The wrapper's own logic (`DataType::new`, `DataObj::get`, `set_default`,
`from_json`, `from_json_file`, `get_json`, `remove`, `DataArray::len`,
`is_empty`, `get`, and the per-type `FromDataItem` implementations) is
embedded below directly from `src/data.rs`.  The native library
(`obs_data_*` functions) and the `wrapper`/`string` helper modules are not
part of the provided sources, so their behaviour is modelled from the
specification; each such definition carries a doc comment saying so.
-/

/-- The closed type tag, from `src/data.rs` (`pub enum DataType`). -/
inductive DataType where
| String : DataType
| Int : DataType
| Double : DataType
| Boolean : DataType
| Object : DataType
| Array : DataType
deriving DecidableEq

/-- Modelled from the spec: native discriminant for string values, from the
native library's `enum obs_data_type` declaration (the generated bindings
are not part of the provided sources). -/
def obs_data_type_OBS_DATA_STRING : Nat := 1

/-- Modelled from the spec: native discriminant for numeric values. -/
def obs_data_type_OBS_DATA_NUMBER : Nat := 2

/-- Modelled from the spec: native discriminant for boolean values. -/
def obs_data_type_OBS_DATA_BOOLEAN : Nat := 3

/-- Modelled from the spec: native discriminant for object values. -/
def obs_data_type_OBS_DATA_OBJECT : Nat := 4

/-- Modelled from the spec: native discriminant for array values. -/
def obs_data_type_OBS_DATA_ARRAY : Nat := 5

/-- Modelled from the spec: native numeric sub-discriminant for integers. -/
def obs_data_number_type_OBS_DATA_NUM_INT : Nat := 1

/-- Modelled from the spec: native numeric sub-discriminant for doubles. -/
def obs_data_number_type_OBS_DATA_NUM_DOUBLE : Nat := 2

/-- `DataType::new` from `src/data.rs` lines 41-54.  The Rust function
panics (`unimplemented!`) on unrecognized discriminants; a panic is
modelled as `none`. -/
def DataType.new (typ : Nat) (numtyp : Nat) : Option DataType :=
  if typ = obs_data_type_OBS_DATA_STRING then some DataType.String
  else if typ = obs_data_type_OBS_DATA_NUMBER then
    (if numtyp = obs_data_number_type_OBS_DATA_NUM_INT then some DataType.Int
     else if numtyp = obs_data_number_type_OBS_DATA_NUM_DOUBLE then some DataType.Double
     else none)
  else if typ = obs_data_type_OBS_DATA_BOOLEAN then some DataType.Boolean
  else if typ = obs_data_type_OBS_DATA_OBJECT then some DataType.Object
  else if typ = obs_data_type_OBS_DATA_ARRAY then some DataType.Array
  else none

mutual
/-- Modelled from the spec: a dynamically typed native value held by a data
item (string, 64-bit integer, double, boolean, nested object, nested
array).  Doubles are modelled as rationals. -/
inductive DVal where
| vstr : String → DVal
| vint : Int → DVal
| vdbl : Rat → DVal
| vbool : Bool → DVal
| vobj : Fields → DVal
| varr : DArrL → DVal

/-- Modelled from the spec: one storage slot of a data item (either empty
or holding a value); each item has a user-value slot and a default slot. -/
inductive Slot where
| empty : Slot
| val : DVal → Slot

/-- Modelled from the spec: the field list of a native data object.  Each
entry is a name together with the user-value slot and the schema-default
slot of that item. -/
inductive Fields where
| nil : Fields
| cons : String → Slot → Slot → Fields → Fields

/-- Modelled from the spec: a native data array, an ordered sequence of
data objects. -/
inductive DArrL where
| nil : DArrL
| cons : Fields → DArrL → DArrL
end

/-- Modelled from the spec: the runtime type tag of a stored value. -/
def dtypeOf : DVal → DataType
| DVal.vstr _ => DataType.String
| DVal.vint _ => DataType.Int
| DVal.vdbl _ => DataType.Double
| DVal.vbool _ => DataType.Boolean
| DVal.vobj _ => DataType.Object
| DVal.varr _ => DataType.Array

/-- Modelled from the spec: looking a key up in the field list, returning
the item's (value, default) slot pair. -/
def Fields.lookupItem : Fields → String → Option (Slot × Slot)
| Fields.nil, _ => none
| Fields.cons k v d rest, n => if k = n then some (v, d) else rest.lookupItem n

/-- Modelled from the spec: the effective value of an item — the explicit
user value if one is set, otherwise the schema default ("a fallback value
installed on a key, returned by lookups when no explicit value has been
set for that key"). -/
def itemEffective : Slot × Slot → Option DVal
| (Slot.val x, _) => some x
| (Slot.empty, Slot.val x) => some x
| (Slot.empty, Slot.empty) => none

/-- Modelled from the spec: `obs_data_item_byname` — returns the item for
a name when the object holds one (an item exists exactly when it carries a
user value or a default). -/
def obs_data_item_byname (o : Fields) (n : String) : Option (Slot × Slot) :=
  match o.lookupItem n with
  | some it => match itemEffective it with
    | some _ => some it
    | none => none
  | none => none

/-- The host-side types implementing `FromDataItem` in `src/data.rs`:
`Cow<str>`, `ObsString`, the ten integer widths, `f64`, `f32`, `bool`,
`DataObj`, `DataArray`. -/
inductive HostTy where
| cowStr : HostTy
| obsStr : HostTy
| i64 : HostTy
| u64 : HostTy
| i32 : HostTy
| u32 : HostTy
| i16 : HostTy
| u16 : HostTy
| i8 : HostTy
| u8 : HostTy
| isize : HostTy
| usize : HostTy
| f64 : HostTy
| f32 : HostTy
| boolTy : HostTy
| objTy : HostTy
| arrTy : HostTy
deriving DecidableEq

/-- `FromDataItem::typ` for each implementation, from `src/data.rs`
(all ten integer widths declare `DataType::Int`; `f32` and `f64` declare
`DataType::Double`). -/
def HostTy.typ : HostTy → DataType
| HostTy.cowStr => DataType.String
| HostTy.obsStr => DataType.String
| HostTy.i64 => DataType.Int
| HostTy.u64 => DataType.Int
| HostTy.i32 => DataType.Int
| HostTy.u32 => DataType.Int
| HostTy.i16 => DataType.Int
| HostTy.u16 => DataType.Int
| HostTy.i8 => DataType.Int
| HostTy.u8 => DataType.Int
| HostTy.isize => DataType.Int
| HostTy.usize => DataType.Int
| HostTy.f64 => DataType.Double
| HostTy.f32 => DataType.Double
| HostTy.boolTy => DataType.Boolean
| HostTy.objTy => DataType.Object
| HostTy.arrTy => DataType.Array

/-- Whether the host type is one of the ten integer implementations
produced by `impl_get_int!` in `src/data.rs` line 124. -/
def HostTy.isInt : HostTy → Bool
| HostTy.i64 => true
| HostTy.u64 => true
| HostTy.i32 => true
| HostTy.u32 => true
| HostTy.i16 => true
| HostTy.u16 => true
| HostTy.i8 => true
| HostTy.u8 => true
| HostTy.isize => true
| HostTy.usize => true
| _ => false

/-- Signedness of each integer host type (`isize`/`usize` are 64-bit on
the fixed target platform). -/
def HostTy.signed : HostTy → Bool
| HostTy.i64 => true
| HostTy.i32 => true
| HostTy.i16 => true
| HostTy.i8 => true
| HostTy.isize => true
| _ => false

/-- Bit width of each integer host type. -/
def HostTy.width : HostTy → Nat
| HostTy.i64 => 64
| HostTy.u64 => 64
| HostTy.i32 => 32
| HostTy.u32 => 32
| HostTy.i16 => 16
| HostTy.u16 => 16
| HostTy.i8 => 8
| HostTy.u8 => 8
| HostTy.isize => 64
| HostTy.usize => 64
| _ => 0

/-- The scalar host types named by the spec's round-trip property
("integer widths, f32/f64, bool, string types"). -/
def HostTy.isScalar : HostTy → Bool
| HostTy.objTy => false
| HostTy.arrTy => false
| _ => true

/-- A host-side decoded value, the result carrier of `DataObj::get`. -/
inductive HVal where
| hstr : String → HVal
| hint : Int → HVal
| hdbl : Rat → HVal
| hbool : Bool → HVal
| hobj : Fields → HVal
| harr : DArrL → HVal

/-- Rust's `as` cast from a 64-bit integer into a `w`-bit integer type:
two's-complement reduction modulo `2 ^ w`, reinterpreted as signed when
`signed` is `true` (`src/data.rs` line 114 `obs_data_item_get_int(item) as $t`). -/
def asCast (signed : Bool) (w : Nat) (n : Int) : Int :=
  if signed = true ∧ (2 : Int) ^ (w - 1) ≤ n % (2 : Int) ^ w then
    n % (2 : Int) ^ w - (2 : Int) ^ w
  else n % (2 : Int) ^ w

/-- Whether `n` is within the value range of a `w`-bit integer type. -/
def inRangeB (signed : Bool) (w : Nat) (n : Int) : Bool :=
  if signed then decide (-((2 : Int) ^ (w - 1)) ≤ n ∧ n < (2 : Int) ^ (w - 1))
  else decide (0 ≤ n ∧ n < (2 : Int) ^ w)

/-- Whether a Rust string contains an interior NUL byte, the condition
under which `CString::new` fails (and `.unwrap()` in `src/data.rs` line 88
panics). -/
def hasNul (s : String) : Bool := List.contains s.data (Char.ofNat 0)

/-- `FromDataItem::from_item_unchecked` for each implementation, from
`src/data.rs`; called only on an item whose tag matched `T::typ()`.
Integer implementations apply the `as $t` cast; the `f32` implementation's
`as f32` narrowing of a double is modelled as exact (IEEE-754 widening
`f32` to `f64` is exact, so narrowing back returns the same value); string
reads return the stored text (`to_string_lossy` on the valid UTF-8 the
native library stores is lossless). -/
def from_item_unchecked (T : HostTy) (x : DVal) : Option HVal :=
  match T, x with
  | HostTy.cowStr, DVal.vstr s => some (HVal.hstr s)
  | HostTy.obsStr, DVal.vstr s => some (HVal.hstr s)
  | HostTy.i64, DVal.vint n => some (HVal.hint (asCast true 64 n))
  | HostTy.u64, DVal.vint n => some (HVal.hint (asCast false 64 n))
  | HostTy.i32, DVal.vint n => some (HVal.hint (asCast true 32 n))
  | HostTy.u32, DVal.vint n => some (HVal.hint (asCast false 32 n))
  | HostTy.i16, DVal.vint n => some (HVal.hint (asCast true 16 n))
  | HostTy.u16, DVal.vint n => some (HVal.hint (asCast false 16 n))
  | HostTy.i8, DVal.vint n => some (HVal.hint (asCast true 8 n))
  | HostTy.u8, DVal.vint n => some (HVal.hint (asCast false 8 n))
  | HostTy.isize, DVal.vint n => some (HVal.hint (asCast true 64 n))
  | HostTy.usize, DVal.vint n => some (HVal.hint (asCast false 64 n))
  | HostTy.f64, DVal.vdbl q => some (HVal.hdbl q)
  | HostTy.f32, DVal.vdbl q => some (HVal.hdbl q)
  | HostTy.boolTy, DVal.vbool b => some (HVal.hbool b)
  | HostTy.objTy, DVal.vobj o => some (HVal.hobj o)
  | HostTy.arrTy, DVal.varr a => some (HVal.harr a)
  | _, _ => none

/-- `DataObj::get` from `src/data.rs` lines 256-275: look the item up by
name, return `None` when absent, read the runtime tag, decode through
`FromDataItem` only when the tag equals `T::typ()`, otherwise return
`None`.  (The transient acquire/release of the lookup handle is
reference-count bookkeeping with no effect on the returned value; it is
modelled separately.) -/
def DataObj.get (o : Fields) (T : HostTy) (name : String) : Option HVal :=
  match obs_data_item_byname o name with
  | none => none
  | some it =>
    match itemEffective it with
    | none => none
    | some x => if dtypeOf x = T.typ then from_item_unchecked T x else none

/-- Modelled from the spec: installing a schema default on a key — update
the default slot of the existing item, or create an item holding only the
default ("installs a schema default for a field"; "a fallback value
installed on a key"). -/
def Fields.setDflt : Fields → String → DVal → Fields
| Fields.nil, n, x => Fields.cons n Slot.empty (Slot.val x) Fields.nil
| Fields.cons k v d rest, n, x =>
  if k = n then Fields.cons k v (Slot.val x) rest
  else Fields.cons k v d (rest.setDflt n x)

/-- `FromDataItem::set_default_unchecked` for each implementation, from
`src/data.rs`, lifted over the object model.  `none` models a panic:
the `Cow<str>` implementation panics when `CString::new(val).unwrap()`
meets an interior NUL byte (line 88), and the `DataArray` implementation
is `unimplemented!` (line 186).  Integer implementations store
`val as i64`; the `f32` implementation stores `val as f64` (exact).
A value/type combination that Rust's type system cannot produce is also
`none`. -/
def set_default_unchecked (T : HostTy) (o : Fields) (n : String) (v : HVal) : Option Fields :=
  match T, v with
  | HostTy.cowStr, HVal.hstr s =>
    if hasNul s then none else some (o.setDflt n (DVal.vstr s))
  | HostTy.obsStr, HVal.hstr s => some (o.setDflt n (DVal.vstr s))
  | HostTy.i64, HVal.hint m => some (o.setDflt n (DVal.vint (asCast true 64 m)))
  | HostTy.u64, HVal.hint m => some (o.setDflt n (DVal.vint (asCast true 64 m)))
  | HostTy.i32, HVal.hint m => some (o.setDflt n (DVal.vint (asCast true 64 m)))
  | HostTy.u32, HVal.hint m => some (o.setDflt n (DVal.vint (asCast true 64 m)))
  | HostTy.i16, HVal.hint m => some (o.setDflt n (DVal.vint (asCast true 64 m)))
  | HostTy.u16, HVal.hint m => some (o.setDflt n (DVal.vint (asCast true 64 m)))
  | HostTy.i8, HVal.hint m => some (o.setDflt n (DVal.vint (asCast true 64 m)))
  | HostTy.u8, HVal.hint m => some (o.setDflt n (DVal.vint (asCast true 64 m)))
  | HostTy.isize, HVal.hint m => some (o.setDflt n (DVal.vint (asCast true 64 m)))
  | HostTy.usize, HVal.hint m => some (o.setDflt n (DVal.vint (asCast true 64 m)))
  | HostTy.f64, HVal.hdbl q => some (o.setDflt n (DVal.vdbl q))
  | HostTy.f32, HVal.hdbl q => some (o.setDflt n (DVal.vdbl q))
  | HostTy.boolTy, HVal.hbool b => some (o.setDflt n (DVal.vbool b))
  | HostTy.objTy, HVal.hobj f => some (o.setDflt n (DVal.vobj f))
  | HostTy.arrTy, _ => none
  | _, _ => none

/-- `DataObj::set_default` from `src/data.rs` lines 282-288: dispatches to
the type's `set_default_unchecked`.  `none` models a panic. -/
def DataObj.set_default (o : Fields) (T : HostTy) (n : String) (v : HVal) : Option Fields :=
  set_default_unchecked T o n v

/-- Modelled from the spec: `obs_data_erase` removes the named item
entirely ("removes one field by name; no-op if absent"). -/
def Fields.eraseKey : Fields → String → Fields
| Fields.nil, _ => Fields.nil
| Fields.cons k v d rest, n =>
  if k = n then rest.eraseKey n else Fields.cons k v d (rest.eraseKey n)

/-- `DataObj::remove` from `src/data.rs` lines 305-310. -/
def DataObj.remove (o : Fields) (n : String) : Fields := o.eraseKey n

mutual
/-- Modelled from the spec: a parsed JSON document ("JSON text ... for
populating an object", round trip "modulo native JSON formatting"; the
serialized text is represented by its parse tree).  Integer-valued and
real-valued numbers are distinct, as the native JSON layer keeps them
distinct. -/
inductive Json where
| jnull : Json
| jbool : Bool → Json
| jint : Int → Json
| jnum : Rat → Json
| jstr : String → Json
| jarr : JArr → Json
| jobj : JObj → Json

/-- Modelled from the spec: a JSON array (list of documents). -/
inductive JArr where
| nil : JArr
| cons : Json → JArr → JArr

/-- Modelled from the spec: a JSON object (ordered key/value list). -/
inductive JObj where
| nil : JObj
| cons : String → Json → JObj → JObj
end

mutual
/-- Modelled from the spec: serializing one stored value to JSON. -/
def encodeVal : DVal → Json
| DVal.vstr s => Json.jstr s
| DVal.vint n => Json.jint n
| DVal.vdbl q => Json.jnum q
| DVal.vbool b => Json.jbool b
| DVal.vobj o => Json.jobj (encodeFields o)
| DVal.varr a => Json.jarr (encodeArr a)

/-- Modelled from the spec: serializing an object — only explicit user
values are serialized; items carrying only a schema default are not part
of the JSON output. -/
def encodeFields : Fields → JObj
| Fields.nil => JObj.nil
| Fields.cons k v _ rest =>
  match v with
  | Slot.empty => encodeFields rest
  | Slot.val x => JObj.cons k (encodeVal x) (encodeFields rest)

/-- Modelled from the spec: serializing an array of objects. -/
def encodeArr : DArrL → JArr
| DArrL.nil => JArr.nil
| DArrL.cons o rest => JArr.cons (Json.jobj (encodeFields o)) (encodeArr rest)
end

mutual
/-- Modelled from the spec: decoding one JSON document into a stored
value.  JSON null has no representation in the data model and yields
`none`; integers pass through the native 64-bit integer type. -/
def decodeVal : Json → Option DVal
| Json.jnull => none
| Json.jbool b => some (DVal.vbool b)
| Json.jint n => some (DVal.vint (asCast true 64 n))
| Json.jnum q => some (DVal.vdbl q)
| Json.jstr s => some (DVal.vstr s)
| Json.jobj o => some (DVal.vobj (decodeObj o))
| Json.jarr a => some (DVal.varr (decodeArr a))

/-- Modelled from the spec: decoding a JSON object — each decodable field
becomes an explicit user value; undecodable fields are skipped. -/
def decodeObj : JObj → Fields
| JObj.nil => Fields.nil
| JObj.cons k j rest =>
  match decodeVal j with
  | some x => Fields.cons k (Slot.val x) Slot.empty (decodeObj rest)
  | none => decodeObj rest

/-- Modelled from the spec: decoding a JSON array — the native data array
holds objects, so only object elements are kept. -/
def decodeArr : JArr → DArrL
| JArr.nil => DArrL.nil
| JArr.cons j rest =>
  match j with
  | Json.jobj o => DArrL.cons (decodeObj o) (decodeArr rest)
  | _ => decodeArr rest
end

mutual
/-- The explicit-value content of a stored value: nested objects keep only
their explicit fields (schema defaults are not serialized). -/
def stripVal : DVal → DVal
| DVal.vstr s => DVal.vstr s
| DVal.vint n => DVal.vint n
| DVal.vdbl q => DVal.vdbl q
| DVal.vbool b => DVal.vbool b
| DVal.vobj o => DVal.vobj (stripFields o)
| DVal.varr a => DVal.varr (stripArr a)

/-- The explicit-value content of an object: default-only items are
dropped, default slots are cleared, nested values are stripped. -/
def stripFields : Fields → Fields
| Fields.nil => Fields.nil
| Fields.cons k v _ rest =>
  match v with
  | Slot.empty => stripFields rest
  | Slot.val x => Fields.cons k (Slot.val (stripVal x)) Slot.empty (stripFields rest)

/-- The explicit-value content of an array. -/
def stripArr : DArrL → DArrL
| DArrL.nil => DArrL.nil
| DArrL.cons o rest => DArrL.cons (stripFields o) (stripArr rest)
end

mutual
/-- Whether a stored value is JSON-serializable by the native layer: every
stored integer fits the native 64-bit integer type. -/
def validVal : DVal → Bool
| DVal.vstr _ => true
| DVal.vint n => inRangeB true 64 n
| DVal.vdbl _ => true
| DVal.vbool _ => true
| DVal.vobj o => validFields o
| DVal.varr a => validArr a

/-- Whether a slot's content is JSON-serializable. -/
def validSlot : Slot → Bool
| Slot.empty => true
| Slot.val x => validVal x

/-- Whether an object is JSON-serializable. -/
def validFields : Fields → Bool
| Fields.nil => true
| Fields.cons _ v d rest => validSlot v && validSlot d && validFields rest

/-- Whether an array is JSON-serializable. -/
def validArr : DArrL → Bool
| DArrL.nil => true
| DArrL.cons o rest => validFields o && validArr rest
end

/-- Modelled from the spec: `obs_data_create_from_json` — the parsed JSON
is `none` when the text fails to parse, and then no object is created;
a parsed document populates an object from its top-level fields (a
non-object document yields an empty object, as the population loop walks
object fields only). -/
def obs_data_create_from_json (parsed : Option Json) : Option Fields :=
  match parsed with
  | none => none
  | some (Json.jobj o) => some (decodeObj o)
  | some _ => some Fields.nil

/-- `DataObj::from_json` from `src/data.rs` lines 228-234: wraps the
native result, `None` exactly when the native call returned null. -/
def DataObj.from_json (parsed : Option Json) : Option Fields :=
  obs_data_create_from_json parsed

/-- Modelled from the spec: `obs_data_create_from_json_file` — loading
and parsing the primary file, null on failure. -/
def obs_data_create_from_json_file (primary : Option Json) : Option Fields :=
  obs_data_create_from_json primary

/-- Modelled from the spec: `obs_data_create_from_json_file_safe` — falls
back to the backup file when the primary file is bad, null when both are
bad. -/
def obs_data_create_from_json_file_safe (primary backup : Option Json) : Option Fields :=
  match primary with
  | some j => obs_data_create_from_json (some j)
  | none => obs_data_create_from_json backup

/-- `DataObj::from_json_file` from `src/data.rs` lines 239-253: with a
backup extension it calls the safe native loader, otherwise the plain
one; `None` exactly when the native call returned null.  A file's content
is represented by its parse result (`none` = missing or malformed). -/
def DataObj.from_json_file (primary : Option Json) (backup_ext : Option (Option Json)) :
    Option Fields :=
  match backup_ext with
  | some backup => obs_data_create_from_json_file_safe primary backup
  | none => obs_data_create_from_json_file primary

/-- Modelled from the spec: `obs_data_get_json` — serializes the object's
explicit values, returning null on native serialization failure (the
`serializeFail` flag abstracts the native failure condition). -/
def obs_data_get_json (serializeFail : Bool) (o : Fields) : Option Json :=
  if serializeFail then none else some (Json.jobj (encodeFields o))

/-- `DataObj::get_json` from `src/data.rs` lines 291-296: converts the
native string, `None` exactly when the native call returned null (the
`ok()?` on `try_into_obs_string`). -/
def DataObj.get_json (serializeFail : Bool) (o : Fields) : Option Json :=
  match obs_data_get_json serializeFail o with
  | none => none
  | some j => some j

/-- Modelled from the spec: the native state of a data array — each
element object together with its native reference count. -/
abbrev NArray : Type := List (Fields × Nat)

/-- Modelled from the spec: `obs_data_array_count` — the element count. -/
def obs_data_array_count (a : NArray) : Nat := List.length a

/-- `DataArray::len` from `src/data.rs` lines 334-336. -/
def DataArray.len (a : NArray) : Nat := obs_data_array_count a

/-- `DataArray::is_empty` from `src/data.rs` lines 338-340. -/
def DataArray.is_empty (a : NArray) : Bool := DataArray.len a == 0

/-- Increment the native reference count of the element at `i`. -/
def bumpAt : NArray → Nat → NArray
| [], _ => []
| x :: rest, 0 => (x.1, x.2 + 1) :: rest
| x :: rest, Nat.succ i => x :: bumpAt rest i

/-- Modelled from the spec: `obs_data_array_item` — out-of-range indices
return null ("delegated to native bounds checking"); in range, the
element's native reference count is incremented and its handle returned. -/
def obs_data_array_item (a : NArray) (i : Nat) : Option Fields × NArray :=
  match a[i]? with
  | some x => (some x.1, bumpAt a i)
  | none => (none, a)

/-- `DataArray::get` from `src/data.rs` lines 342-347: wraps the native
item pointer through the `@identity` constructor (`from_raw_unchecked`),
which maps null to `None` and takes ownership without a further
increment. -/
def DataArray.get (a : NArray) (i : Nat) : Option Fields × NArray :=
  obs_data_array_item a i

/-- Modelled from the spec: the reference-count state of one native
allocation — its native reference count, the number of live wrapper
handles owning it, and the number of native-internal owning references
(containers that store it). -/
structure RCState where
  refcnt : Nat
  wrappers : Nat
  internal : Nat
deriving DecidableEq

/-- The reference-count-relevant events of the wrapper's lifecycle, per
spec section 4.4. -/
inductive RCOp where
| extract : RCOp
| dropWrapper : RCOp
| internalRelease : RCOp

/-- Modelled from the spec: one reference-count transition of a single
allocation.  `extract` is a nested handle obtained from a parent
container (object field or array element): the native count is
incremented at extraction time and a new wrapper handle appears.
`dropWrapper` is a wrapper's destruction: exactly one release.
`internalRelease` is the owning container dropping its stored reference
(erase, clear, or the container's own destruction).  `none` means the
event is impossible in that state. -/
def rcStep (s : RCState) : RCOp → Option RCState
| RCOp.extract =>
  if 1 ≤ s.internal then
    some { refcnt := s.refcnt + 1, wrappers := s.wrappers + 1, internal := s.internal }
  else none
| RCOp.dropWrapper =>
  if 1 ≤ s.wrappers then
    some { refcnt := s.refcnt - 1, wrappers := s.wrappers - 1, internal := s.internal }
  else none
| RCOp.internalRelease =>
  if 1 ≤ s.internal then
    some { refcnt := s.refcnt - 1, wrappers := s.wrappers, internal := s.internal - 1 }
  else none

/-- Modelled from the spec: a freshly constructed allocation wrapped by
the `@identity` constructor (`obs_data_create` then
`from_raw_unchecked`): reference count 1, one owning wrapper handle, no
extra increment. -/
def RCState.freshOwned : RCState := { refcnt := 1, wrappers := 1, internal := 1 - 1 }

/-- Modelled from the spec: an allocation created inside a container by
the native library (for example while parsing JSON): reference count 1,
held by its container, no wrapper handle yet. -/
def RCState.freshInternal : RCState := { refcnt := 1, wrappers := 1 - 1, internal := 1 }

/-- The reference-count states reachable from the two creation modes by
wrapper-lifecycle events. -/
inductive RCReach : RCState → Prop where
| owned : RCReach RCState.freshOwned
| internal : RCReach RCState.freshInternal
| step (s s2 : RCState) (op : RCOp) : RCReach s → rcStep s op = some s2 → RCReach s2

/-- Modelled from the spec: the native reference count of the item handle
returned by `obs_data_item_byname` when the object holds `objHolds`
references to the item: the lookup transiently acquires one more. -/
def itemBynameCount (objHolds : Nat) : Nat := objHolds + 1

/-- Modelled from the spec: `obs_data_item_release` on a handle whose
reference count is `cnt` — decrements, and nulls the caller's pointer
exactly when the count reached zero (the allocation was freed).  `none`
models the nulled pointer. -/
def obs_data_item_release (cnt : Nat) : Option Nat :=
  if cnt - 1 = 0 then none else some (cnt - 1)

/-- The pointer state checked by the `assert!(!item_ptr.is_null())` in
`DataObj::get` (`src/data.rs` line 266): the item pointer after the
transient acquire of `obs_data_item_byname` followed by the immediate
`obs_data_item_release`. -/
def getItemPtrAfterRelease (objHolds : Nat) : Option Nat :=
  obs_data_item_release (itemBynameCount objHolds)

/-- The spec's schema-default round trip as one operation: `set_default`
followed by `get` on the same key and type.  `none` when `set_default`
panics. -/
def set_then_get (o : Fields) (T : HostTy) (n : String) (v : HVal) : Option HVal :=
  match DataObj.set_default o T n v with
  | some o2 => DataObj.get o2 T n
  | none => none

/-- Whether a host value is a value of the given host type: the carrier
constructor matches, integers are within the type's range, and an
`ObsString` carries no interior NUL (it is a C string by construction). -/
def HVal.isValueOf : HVal → HostTy → Bool
| HVal.hstr _, HostTy.cowStr => true
| HVal.hstr s, HostTy.obsStr => !hasNul s
| HVal.hint m, HostTy.i64 => inRangeB true 64 m
| HVal.hint m, HostTy.u64 => inRangeB false 64 m
| HVal.hint m, HostTy.i32 => inRangeB true 32 m
| HVal.hint m, HostTy.u32 => inRangeB false 32 m
| HVal.hint m, HostTy.i16 => inRangeB true 16 m
| HVal.hint m, HostTy.u16 => inRangeB false 16 m
| HVal.hint m, HostTy.i8 => inRangeB true 8 m
| HVal.hint m, HostTy.u8 => inRangeB false 8 m
| HVal.hint m, HostTy.isize => inRangeB true 64 m
| HVal.hint m, HostTy.usize => inRangeB false 64 m
| HVal.hdbl _, HostTy.f64 => true
| HVal.hdbl _, HostTy.f32 => true
| HVal.hbool _, HostTy.boolTy => true
| HVal.hobj _, HostTy.objTy => true
| HVal.harr _, HostTy.arrTy => true
| _, _ => false

/-- Whether the value avoids the `Cow<str>` interior-NUL panic of
`set_default` (`CString::new(val).unwrap()`, `src/data.rs` line 88). -/
def cowNulFree : HostTy → HVal → Bool
| HostTy.cowStr, HVal.hstr s => !hasNul s
| _, _ => true

/-- Whether the object holds an explicit (non-default) value for the key. -/
def hasExplicitValue (o : Fields) (n : String) : Bool :=
  match Fields.lookupItem o n with
  | some (Slot.val _, _) => true
  | _ => false

theorem two_pow_split (w : Nat) (hw : 0 < w) : (2 : Int) ^ w = 2 * 2 ^ (w - 1) := by
  conv_lhs => rw [show w = (w - 1) + 1 from (Nat.succ_pred_eq_of_pos hw).symm]
  rw [pow_succ]
  ring

theorem asCast_congr (s : Bool) (w : Nat) (m n : Int)
    (h : m % (2 : Int) ^ w = n % (2 : Int) ^ w) : asCast s w m = asCast s w n := by
  unfold asCast
  rw [h]

theorem asCast64_emod (w : Nat) (hw : w ≤ 64) (n : Int) :
    asCast true 64 n % (2 : Int) ^ w = n % (2 : Int) ^ w := by
  have hdvd : (2 : Int) ^ w ∣ (2 : Int) ^ 64 := pow_dvd_pow 2 hw
  unfold asCast
  split
  · rw [Int.sub_emod, Int.emod_emod_of_dvd n hdvd, Int.emod_eq_zero_of_dvd hdvd, sub_zero,
      Int.emod_emod_of_dvd _ dvd_rfl]
  · exact Int.emod_emod_of_dvd n hdvd

theorem asCast_asCast64 (s : Bool) (w : Nat) (hw : w ≤ 64) (n : Int) :
    asCast s w (asCast true 64 n) = asCast s w n :=
  asCast_congr s w _ n (asCast64_emod w hw n)

theorem asCast_of_inRangeB (s : Bool) (w : Nat) (hw : 0 < w) (n : Int)
    (h : inRangeB s w n = true) : asCast s w n = n := by
  have hp : (0 : Int) < 2 ^ (w - 1) := pow_pos (by norm_num) _
  have h2w : (2 : Int) ^ w = 2 * 2 ^ (w - 1) := two_pow_split w hw
  cases s with
  | false =>
    have h2 : 0 ≤ n ∧ n < (2 : Int) ^ w := by simpa [inRangeB] using h
    unfold asCast
    rw [Int.emod_eq_of_lt h2.1 h2.2]
    simp
  | true =>
    have h2 : -((2 : Int) ^ (w - 1)) ≤ n ∧ n < (2 : Int) ^ (w - 1) := by
      simpa [inRangeB] using h
    unfold asCast
    rcases le_or_lt 0 n with hn | hn
    · have hlt : n < (2 : Int) ^ w := by omega
      rw [Int.emod_eq_of_lt hn hlt]
      have hc : ¬ ((2 : Int) ^ (w - 1) ≤ n) := by omega
      simp [hc]
    · have he : n % (2 : Int) ^ w = n + 2 ^ w := by
        have h0 : 0 ≤ n + (2 : Int) ^ w := by omega
        have h1 : n + (2 : Int) ^ w < 2 ^ w := by omega
        calc n % (2 : Int) ^ w = (n + 2 ^ w * 1) % 2 ^ w := by
              rw [Int.add_mul_emod_self_left]
        _ = n + 2 ^ w := by rw [mul_one, Int.emod_eq_of_lt h0 h1]
      rw [he]
      have hc : (2 : Int) ^ (w - 1) ≤ n + 2 ^ w := by omega
      simp [hc]

theorem lookupItem_setDflt : (o : Fields) → (n : String) → (x : DVal) →
    Fields.lookupItem (Fields.setDflt o n x) n =
      some ((match Fields.lookupItem o n with
             | some it => it.1
             | none => Slot.empty), Slot.val x)
| Fields.nil, n, x => by simp [Fields.setDflt, Fields.lookupItem]
| Fields.cons k v d rest, n, x => by
  by_cases hk : k = n
  · simp [Fields.setDflt, Fields.lookupItem, hk]
  · simp [Fields.setDflt, Fields.lookupItem, hk, lookupItem_setDflt rest n x]

theorem lookupItem_eraseKey : (o : Fields) → (n : String) →
    Fields.lookupItem (Fields.eraseKey o n) n = none
| Fields.nil, _ => rfl
| Fields.cons k v d rest, n => by
  by_cases hk : k = n
  · simp [Fields.eraseKey, hk, lookupItem_eraseKey rest n]
  · simp [Fields.eraseKey, Fields.lookupItem, hk, lookupItem_eraseKey rest n]

theorem eraseKey_of_absent : (o : Fields) → (n : String) →
    Fields.lookupItem o n = none → Fields.eraseKey o n = o
| Fields.nil, _, _ => rfl
| Fields.cons k v d rest, n, h => by
  by_cases hk : k = n
  · simp [Fields.lookupItem, hk] at h
  · simp [Fields.lookupItem, hk] at h
    simp [Fields.eraseKey, hk, eraseKey_of_absent rest n h]

mutual
theorem decodeVal_encodeVal : (v : DVal) → validVal v = true →
    decodeVal (encodeVal v) = some (stripVal v)
| DVal.vstr s, _ => rfl
| DVal.vint n, h => by
  have hr : inRangeB true 64 n = true := by simpa [validVal] using h
  simp [encodeVal, decodeVal, stripVal, asCast_of_inRangeB true 64 (by norm_num) n hr]
| DVal.vdbl q, _ => rfl
| DVal.vbool b, _ => rfl
| DVal.vobj o, h => by
  have ho : validFields o = true := by simpa [validVal] using h
  simp [encodeVal, decodeVal, stripVal, decodeObj_encodeFields o ho]
| DVal.varr a, h => by
  have ha : validArr a = true := by simpa [validVal] using h
  simp [encodeVal, decodeVal, stripVal, decodeArr_encodeArr a ha]

theorem decodeObj_encodeFields : (f : Fields) → validFields f = true →
    decodeObj (encodeFields f) = stripFields f
| Fields.nil, _ => rfl
| Fields.cons k v d rest, h => by
  have h3 : validSlot v = true ∧ validSlot d = true ∧ validFields rest = true := by
    simpa [validFields, Bool.and_eq_true, and_assoc] using h
  cases v with
  | empty =>
    simp [encodeFields, stripFields, decodeObj_encodeFields rest h3.2.2]
  | val x =>
    have hx : validVal x = true := by simpa [validSlot] using h3.1
    simp [encodeFields, stripFields, decodeObj, decodeVal_encodeVal x hx,
      decodeObj_encodeFields rest h3.2.2]

theorem decodeArr_encodeArr : (a : DArrL) → validArr a = true →
    decodeArr (encodeArr a) = stripArr a
| DArrL.nil, _ => rfl
| DArrL.cons o rest, h => by
  have h2 : validFields o = true ∧ validArr rest = true := by
    simpa [validArr, Bool.and_eq_true] using h
  simp [encodeArr, decodeArr, stripArr, decodeObj_encodeFields o h2.1,
    decodeArr_encodeArr rest h2.2]
end

/-- C5: `DataType::new` panics (modelled as `none`) exactly when the
discriminant is unrecognized — `typ` is none of the five matched
`obs_data_type` values, or `typ` is NUMBER with a numeric sub-discriminant
that is neither NUM_INT nor NUM_DOUBLE — and on every recognized
discriminant it returns the corresponding tag; and
`set_default::<DataArray>` always panics (`unimplemented!`), since the
native library has no array-default operation. -/
theorem c5_fatal_policy :
    (∀ typ numtyp : Nat,
      DataType.new typ numtyp = none ↔
        ((typ ≠ obs_data_type_OBS_DATA_STRING ∧ typ ≠ obs_data_type_OBS_DATA_NUMBER ∧
          typ ≠ obs_data_type_OBS_DATA_BOOLEAN ∧ typ ≠ obs_data_type_OBS_DATA_OBJECT ∧
          typ ≠ obs_data_type_OBS_DATA_ARRAY) ∨
         (typ = obs_data_type_OBS_DATA_NUMBER ∧
          numtyp ≠ obs_data_number_type_OBS_DATA_NUM_INT ∧
          numtyp ≠ obs_data_number_type_OBS_DATA_NUM_DOUBLE)))
    ∧ (∀ numtyp, DataType.new obs_data_type_OBS_DATA_STRING numtyp = some DataType.String)
    ∧ DataType.new obs_data_type_OBS_DATA_NUMBER obs_data_number_type_OBS_DATA_NUM_INT =
        some DataType.Int
    ∧ DataType.new obs_data_type_OBS_DATA_NUMBER obs_data_number_type_OBS_DATA_NUM_DOUBLE =
        some DataType.Double
    ∧ (∀ numtyp, DataType.new obs_data_type_OBS_DATA_BOOLEAN numtyp = some DataType.Boolean)
    ∧ (∀ numtyp, DataType.new obs_data_type_OBS_DATA_OBJECT numtyp = some DataType.Object)
    ∧ (∀ numtyp, DataType.new obs_data_type_OBS_DATA_ARRAY numtyp = some DataType.Array)
    ∧ (∀ (o : Fields) (n : String) (v : HVal),
        DataObj.set_default o HostTy.arrTy n v = none) := by
  refine ⟨?_, ?_, rfl, rfl, ?_, ?_, ?_, ?_⟩
  · intro typ numtyp
    unfold DataType.new
    unfold obs_data_type_OBS_DATA_STRING obs_data_type_OBS_DATA_NUMBER
      obs_data_type_OBS_DATA_BOOLEAN obs_data_type_OBS_DATA_OBJECT
      obs_data_type_OBS_DATA_ARRAY obs_data_number_type_OBS_DATA_NUM_INT
      obs_data_number_type_OBS_DATA_NUM_DOUBLE
    split_ifs <;> simp_all
  · intro numtyp; rfl
  · intro numtyp; rfl
  · intro numtyp; rfl
  · intro numtyp; rfl
  · intro o n v
    cases v <;> rfl

/-- C6: failures surface as an explicit absent value: `from_json` is
`None` when the JSON text fails to parse; `from_json_file` is `None` when
loading fails entirely, with or without a backup suffix (backup given and
both files bad, or no backup and the primary bad); `get_json` is `None`
when native serialization or string conversion fails. -/
theorem c6_failure_as_absence :
    DataObj.from_json none = none
    ∧ DataObj.from_json_file none none = none
    ∧ DataObj.from_json_file none (some none) = none
    ∧ (∀ o : Fields, DataObj.get_json true o = none) :=
  ⟨rfl, rfl, rfl, fun _ => rfl⟩

/-- C2: `get::<T>` never coerces: when the looked-up item's runtime tag
differs from `T::typ()` the result is `None`; and a `some` result can only
arise from an item whose runtime tag equals `T::typ()`, decoded by that
type's `FromDataItem` implementation. -/
theorem c2_exact_tag_match :
    (∀ (o : Fields) (T : HostTy) (name : String) (it : Slot × Slot) (x : DVal),
        obs_data_item_byname o name = some it → itemEffective it = some x →
        dtypeOf x ≠ HostTy.typ T → DataObj.get o T name = none)
    ∧ (∀ (o : Fields) (T : HostTy) (name : String) (hv : HVal),
        DataObj.get o T name = some hv →
        ∃ it x, obs_data_item_byname o name = some it ∧ itemEffective it = some x ∧
          dtypeOf x = HostTy.typ T ∧ from_item_unchecked T x = some hv) := by
  constructor
  · intro o T name it x hby heff hne
    simp [DataObj.get, hby, heff, hne]
  · intro o T name hv hget
    unfold DataObj.get at hget
    cases hby : obs_data_item_byname o name with
    | none =>
      simp only [hby] at hget
      exact Option.noConfusion hget
    | some it =>
      simp only [hby] at hget
      cases heff : itemEffective it with
      | none =>
        simp only [heff] at hget
        exact Option.noConfusion hget
      | some x =>
        simp only [heff] at hget
        by_cases ht : dtypeOf x = HostTy.typ T
        · rw [if_pos ht] at hget
          exact ⟨it, x, rfl, heff, ht, hget⟩
        · rw [if_neg ht] at hget
          exact Option.noConfusion hget

/-- Witness for C2 at a concrete input: a string-valued field read at
type `i32` yields `None`. -/
theorem c2_exact_tag_match_witness :
    DataObj.get (Fields.cons "k" (Slot.val (DVal.vstr "s")) Slot.empty Fields.nil)
      HostTy.i32 "k" = none :=
  c2_exact_tag_match.1 _ HostTy.i32 "k" (Slot.val (DVal.vstr "s"), Slot.empty)
    (DVal.vstr "s") rfl rfl (by decide)

/-- C7: the assertion in `DataObj::get` never fires: when the object
itself holds at least one reference to the item, the transient reference
acquired by `obs_data_item_byname` and immediately dropped by
`obs_data_item_release` leaves the count positive, so the pointer is not
nulled (it remains `some`, holding exactly the parent's references). -/
theorem c7_get_assertion_valid (objHolds : Nat) (h : 1 ≤ objHolds) :
    getItemPtrAfterRelease objHolds = some objHolds := by
  unfold getItemPtrAfterRelease obs_data_item_release itemBynameCount
  have hne : ¬ (objHolds + 1 - 1 = 0) := by omega
  rw [if_neg hne]
  simp

/-- Witness for C7 at a concrete input: with the parent holding one
reference, the pointer survives the transient acquire/release. -/
theorem c7_get_assertion_valid_witness : getItemPtrAfterRelease 1 = some 1 :=
  c7_get_assertion_valid 1 (by decide)

/-- C1: every reachable reference-count state of an allocation satisfies
the ownership invariant — the native reference count equals the number of
live owning wrapper handles plus the native-internal owning references.
Constructors (`@identity`) take over the freshly created reference
without an extra increment, nested extraction performs exactly one
increment per new handle, and destruction performs exactly one decrement,
so no allocation is released twice or leaked. -/
theorem c1_refcount_invariant (s : RCState) (h : RCReach s) :
    s.refcnt = s.wrappers + s.internal := by
  induction h with
  | owned => rfl
  | internal => rfl
  | step s s2 op hs hstep ih =>
    cases op with
    | extract =>
      by_cases hc : 1 ≤ s.internal
      · simp [rcStep, hc] at hstep
        rw [← hstep]
        simp
        omega
      · simp [rcStep, hc] at hstep
    | dropWrapper =>
      by_cases hc : 1 ≤ s.wrappers
      · simp [rcStep, hc] at hstep
        rw [← hstep]
        simp
        omega
      · simp [rcStep, hc] at hstep
    | internalRelease =>
      by_cases hc : 1 ≤ s.internal
      · simp [rcStep, hc] at hstep
        rw [← hstep]
        simp
        omega
      · simp [rcStep, hc] at hstep

/-- Witness for C1 at a concrete state: a container-held allocation from
which a nested handle has been extracted (count 2 = one wrapper handle
plus one internal reference) is reachable and satisfies the invariant. -/
theorem c1_refcount_invariant_witness :
    RCReach { refcnt := 2, wrappers := 1, internal := 1 }
    ∧ ({ refcnt := 2, wrappers := 1, internal := 1 } : RCState).refcnt =
        ({ refcnt := 2, wrappers := 1, internal := 1 } : RCState).wrappers +
          ({ refcnt := 2, wrappers := 1, internal := 1 } : RCState).internal := by
  have hr : RCReach { refcnt := 2, wrappers := 1, internal := 1 } :=
    RCReach.step RCState.freshInternal _ RCOp.extract RCReach.internal rfl
  exact ⟨hr, c1_refcount_invariant _ hr⟩

/-- C4: JSON round trip — for every JSON-serializable object, `get_json`
returns a serialized document and `from_json` of that document
reconstructs an object whose key-value fields are the explicit fields of
the original (schema defaults are not serialized; `stripFields` is
exactly that explicit-field content). -/
theorem c4_json_roundtrip (o : Fields) (h : validFields o = true) :
    (DataObj.get_json false o).isSome = true
    ∧ DataObj.from_json (DataObj.get_json false o) = some (stripFields o) := by
  constructor
  · rfl
  · show DataObj.from_json (some (Json.jobj (encodeFields o))) = some (stripFields o)
    simp [DataObj.from_json, obs_data_create_from_json, decodeObj_encodeFields o h]

/-- Witness for C4 at a concrete input: an object with one explicit
integer field and one default-only boolean field round-trips to exactly
its explicit content. -/
theorem c4_json_roundtrip_witness :
    validFields (Fields.cons "a" (Slot.val (DVal.vint 3)) Slot.empty
      (Fields.cons "b" Slot.empty (Slot.val (DVal.vbool true)) Fields.nil)) = true
    ∧ ((DataObj.get_json false (Fields.cons "a" (Slot.val (DVal.vint 3)) Slot.empty
          (Fields.cons "b" Slot.empty (Slot.val (DVal.vbool true)) Fields.nil))).isSome = true
      ∧ DataObj.from_json (DataObj.get_json false
          (Fields.cons "a" (Slot.val (DVal.vint 3)) Slot.empty
            (Fields.cons "b" Slot.empty (Slot.val (DVal.vbool true)) Fields.nil))) =
          some (stripFields (Fields.cons "a" (Slot.val (DVal.vint 3)) Slot.empty
            (Fields.cons "b" Slot.empty (Slot.val (DVal.vbool true)) Fields.nil)))) :=
  ⟨rfl, c4_json_roundtrip _ rfl⟩

/-- C9: `remove` followed by `get` on the same key returns `None`, for
every prior state of the object (the erased item takes its schema default
with it); and `remove` on an absent key is a no-op. -/
theorem c9_remove_then_get (o : Fields) (n : String) (T : HostTy) :
    DataObj.get (DataObj.remove o n) T n = none
    ∧ (Fields.lookupItem o n = none → DataObj.remove o n = o) := by
  constructor
  · simp [DataObj.get, DataObj.remove, obs_data_item_byname, lookupItem_eraseKey o n]
  · intro h
    exact eraseKey_of_absent o n h

/-- Witness for C9 at a concrete input: removing a key whose item holds a
schema default makes `get` return `None`, and removing an absent key
leaves the object unchanged. -/
theorem c9_remove_then_get_witness :
    DataObj.get (DataObj.remove
        (Fields.cons "k" Slot.empty (Slot.val (DVal.vint 1)) Fields.nil) "k")
      HostTy.i64 "k" = none
    ∧ Fields.lookupItem
        (Fields.cons "k" Slot.empty (Slot.val (DVal.vint 1)) Fields.nil) "z" = none
    ∧ DataObj.remove
        (Fields.cons "k" Slot.empty (Slot.val (DVal.vint 1)) Fields.nil) "z" =
        Fields.cons "k" Slot.empty (Slot.val (DVal.vint 1)) Fields.nil :=
  ⟨(c9_remove_then_get (Fields.cons "k" Slot.empty (Slot.val (DVal.vint 1)) Fields.nil)
      "k" HostTy.i64).1,
   rfl,
   (c9_remove_then_get (Fields.cons "k" Slot.empty (Slot.val (DVal.vint 1)) Fields.nil)
      "z" HostTy.i64).2 rfl⟩

/-- C10: for every integer host type, `get` on an `Int`-tagged item
returns the stored native 64-bit integer converted by the
two's-complement `as` cast (reduction modulo the type's bit width), never
an absence: out-of-range values silently wrap. -/
theorem c10_int_as_cast (o : Fields) (name : String) (T : HostTy) (n : Int)
    (it : Slot × Slot) (hT : HostTy.isInt T = true)
    (hby : obs_data_item_byname o name = some it)
    (heff : itemEffective it = some (DVal.vint n)) :
    DataObj.get o T name =
      some (HVal.hint (asCast (HostTy.signed T) (HostTy.width T) n)) := by
  cases T <;> simp_all [HostTy.isInt, HostTy.typ, HostTy.signed, HostTy.width,
    DataObj.get, dtypeOf, from_item_unchecked]

/-- Witness for C10 at a concrete input: a stored value 300 read at `i8`
wraps to 44 instead of being reported absent. -/
theorem c10_int_as_cast_witness :
    DataObj.get (Fields.cons "k" (Slot.val (DVal.vint 300)) Slot.empty Fields.nil)
      HostTy.i8 "k" = some (HVal.hint 44) := by
  have h := c10_int_as_cast
    (Fields.cons "k" (Slot.val (DVal.vint 300)) Slot.empty Fields.nil) "k"
    HostTy.i8 300 (Slot.val (DVal.vint 300), Slot.empty) rfl rfl rfl
  have hc : asCast (HostTy.signed HostTy.i8) (HostTy.width HostTy.i8) 300 = 44 := by
    decide
  rw [hc] at h
  exact h

/-- C8: `DataArray::get` returns `None` exactly for out-of-range indices;
in range it returns the element object over the same underlying native
storage with that element's native reference count incremented; and
`is_empty` holds exactly when `len` is zero. -/
theorem c8_array_bounds (a : NArray) (i : Nat) :
    (DataArray.len a ≤ i → DataArray.get a i = (none, a))
    ∧ (∀ h : i < DataArray.len a,
        DataArray.get a i = (some (List.get a ⟨i, h⟩).1, bumpAt a i))
    ∧ (DataArray.is_empty a = true ↔ DataArray.len a = 0) := by
  refine ⟨?_, ?_, ?_⟩
  · intro h
    have hn : a[i]? = none := List.getElem?_eq_none h
    simp [DataArray.get, obs_data_array_item, hn]
  · intro h
    have hs : a[i]? = some (a.get ⟨i, h⟩) := List.getElem?_eq_getElem h
    simp [DataArray.get, obs_data_array_item, hs]
  · simp [DataArray.is_empty, DataArray.len, obs_data_array_count]

/-- Witness for C8 at concrete inputs: index 3 of a one-element array is
`None` with the array untouched; index 0 returns the element with its
reference count bumped; the empty array is empty. -/
theorem c8_array_bounds_witness :
    DataArray.get [(Fields.nil, 1)] 3 = (none, [(Fields.nil, 1)])
    ∧ DataArray.get [(Fields.nil, 1)] 0 = (some Fields.nil, [(Fields.nil, 2)])
    ∧ (DataArray.is_empty ([] : NArray) = true ↔ DataArray.len ([] : NArray) = 0) :=
  ⟨(c8_array_bounds [(Fields.nil, 1)] 3).1 (by decide),
   (c8_array_bounds [(Fields.nil, 1)] 0).2.1 (by decide),
   (c8_array_bounds ([] : NArray) 0).2.2⟩

theorem get_after_setDflt (o : Fields) (n : String) (x : DVal) (T : HostTy)
    (hnoval : hasExplicitValue o n = false) (htag : dtypeOf x = HostTy.typ T) :
    DataObj.get (Fields.setDflt o n x) T n = from_item_unchecked T x := by
  have hl := lookupItem_setDflt o n x
  cases hlk : Fields.lookupItem o n with
  | none =>
    rw [hlk] at hl
    simp [DataObj.get, obs_data_item_byname, hl, itemEffective, htag]
  | some it =>
    rw [hlk] at hl
    match it, hl with
    | (Slot.empty, d), hl =>
      simp [DataObj.get, obs_data_item_byname, hl, itemEffective, htag]
    | (Slot.val y, d), hl =>
      simp [hasExplicitValue, hlk] at hnoval

theorem int_default_roundtrip (o : Fields) (n : String) (m : Int) (T : HostTy)
    (hnoval : hasExplicitValue o n = false)
    (hT : HostTy.isInt T = true)
    (hstore : set_default_unchecked T o n (HVal.hint m) =
      some (Fields.setDflt o n (DVal.vint (asCast true 64 m))))
    (hr : inRangeB (HostTy.signed T) (HostTy.width T) m = true) :
    set_then_get o T n (HVal.hint m) = some (HVal.hint m) := by
  have htag : dtypeOf (DVal.vint (asCast true 64 m)) = HostTy.typ T := by
    cases T <;> simp_all [HostTy.isInt, HostTy.typ, dtypeOf]
  have hg := get_after_setDflt o n (DVal.vint (asCast true 64 m)) T hnoval htag
  have hw64 : HostTy.width T ≤ 64 := by
    cases T <;> simp_all [HostTy.isInt, HostTy.width]
  have hwpos : 0 < HostTy.width T := by
    cases T <;> simp_all [HostTy.isInt, HostTy.width]
  have hfi : from_item_unchecked T (DVal.vint (asCast true 64 m)) =
      some (HVal.hint (asCast (HostTy.signed T) (HostTy.width T) (asCast true 64 m))) := by
    cases T <;> simp_all [HostTy.isInt, from_item_unchecked, HostTy.signed, HostTy.width]
  simp [set_then_get, DataObj.set_default, hstore, hg, hfi,
    asCast_asCast64 (HostTy.signed T) (HostTy.width T) hw64 m,
    asCast_of_inRangeB (HostTy.signed T) (HostTy.width T) hwpos m hr]

/-- Counterexample to C3 as frozen: for `Cow<str>` with an interior NUL
byte, `set_default` panics (`CString::new(val).unwrap()` at
`src/data.rs` line 88), so `set_default` followed by `get` does not
return the value. -/
theorem c3_roundtrip_cex :
    set_then_get Fields.nil HostTy.cowStr "k" (HVal.hstr "a\x00b") ≠
      some (HVal.hstr "a\x00b") := by
  intro h
  have h2 : (none : Option HVal) = some (HVal.hstr "a\x00b") := h
  exact Option.noConfusion h2

/-- C3 (amended): for every scalar host type and every value of that type
that does not trigger the `Cow<str>` interior-NUL panic, `set_default`
followed by `get` on an object with no explicit value for the key returns
the value; in particular the spec's concrete scenario — `set_default`
of `5i32` on `"count"` of an empty object makes `get::<i32>` return
`Some(5)` and `get::<f64>` return `None` (tag `Int`, not `Double`). -/
theorem c3_default_roundtrip :
    (∀ (o : Fields) (T : HostTy) (n : String) (v : HVal),
      HostTy.isScalar T = true → HVal.isValueOf v T = true → cowNulFree T v = true →
      hasExplicitValue o n = false →
      set_then_get o T n v = some v)
    ∧ (∀ o2 : Fields,
        DataObj.set_default Fields.nil HostTy.i32 "count" (HVal.hint 5) = some o2 →
        DataObj.get o2 HostTy.i32 "count" = some (HVal.hint 5) ∧
        DataObj.get o2 HostTy.f64 "count" = none) := by
  constructor
  · intro o T n v hsc hval hnul hnoval
    cases v with
    | hstr s =>
      cases T <;> try (simp only [HVal.isValueOf] at hval; exact Bool.noConfusion hval)
      case cowStr =>
        have hns : hasNul s = false := by simpa [cowNulFree] using hnul
        have hset : set_default_unchecked HostTy.cowStr o n (HVal.hstr s) =
            some (Fields.setDflt o n (DVal.vstr s)) := by
          simp [set_default_unchecked, hns]
        simp [set_then_get, DataObj.set_default, hset,
          get_after_setDflt o n (DVal.vstr s) HostTy.cowStr hnoval rfl,
          from_item_unchecked]
      case obsStr =>
        simp [set_then_get, DataObj.set_default, set_default_unchecked,
          get_after_setDflt o n (DVal.vstr s) HostTy.obsStr hnoval rfl,
          from_item_unchecked]
    | hint m =>
      cases T <;> try (simp only [HVal.isValueOf] at hval; exact Bool.noConfusion hval)
      case i64 => exact int_default_roundtrip o n m HostTy.i64 hnoval rfl rfl hval
      case u64 => exact int_default_roundtrip o n m HostTy.u64 hnoval rfl rfl hval
      case i32 => exact int_default_roundtrip o n m HostTy.i32 hnoval rfl rfl hval
      case u32 => exact int_default_roundtrip o n m HostTy.u32 hnoval rfl rfl hval
      case i16 => exact int_default_roundtrip o n m HostTy.i16 hnoval rfl rfl hval
      case u16 => exact int_default_roundtrip o n m HostTy.u16 hnoval rfl rfl hval
      case i8 => exact int_default_roundtrip o n m HostTy.i8 hnoval rfl rfl hval
      case u8 => exact int_default_roundtrip o n m HostTy.u8 hnoval rfl rfl hval
      case isize => exact int_default_roundtrip o n m HostTy.isize hnoval rfl rfl hval
      case usize => exact int_default_roundtrip o n m HostTy.usize hnoval rfl rfl hval
    | hdbl q =>
      cases T <;> try (simp only [HVal.isValueOf] at hval; exact Bool.noConfusion hval)
      case f64 =>
        simp [set_then_get, DataObj.set_default, set_default_unchecked,
          get_after_setDflt o n (DVal.vdbl q) HostTy.f64 hnoval rfl,
          from_item_unchecked]
      case f32 =>
        simp [set_then_get, DataObj.set_default, set_default_unchecked,
          get_after_setDflt o n (DVal.vdbl q) HostTy.f32 hnoval rfl,
          from_item_unchecked]
    | hbool b =>
      cases T <;> try (simp only [HVal.isValueOf] at hval; exact Bool.noConfusion hval)
      case boolTy =>
        simp [set_then_get, DataObj.set_default, set_default_unchecked,
          get_after_setDflt o n (DVal.vbool b) HostTy.boolTy hnoval rfl,
          from_item_unchecked]
    | hobj f =>
      cases T <;> try (simp only [HVal.isValueOf] at hval; exact Bool.noConfusion hval)
      case objTy => simp only [HostTy.isScalar] at hsc; exact Bool.noConfusion hsc
    | harr a2 =>
      cases T <;> try (simp only [HVal.isValueOf] at hval; exact Bool.noConfusion hval)
      case arrTy => simp only [HostTy.isScalar] at hsc; exact Bool.noConfusion hsc
  · intro o2 h2
    have h3 : some (Fields.setDflt Fields.nil "count" (DVal.vint (asCast true 64 5))) =
        some o2 := h2
    injection h3 with h4
    subst h4
    exact ⟨rfl, rfl⟩

/-- Witness for C3 (amended) at the spec's concrete input: `5i32` on
`"count"` of the empty object round-trips. -/
theorem c3_default_roundtrip_witness :
    HostTy.isScalar HostTy.i32 = true
    ∧ HVal.isValueOf (HVal.hint 5) HostTy.i32 = true
    ∧ cowNulFree HostTy.i32 (HVal.hint 5) = true
    ∧ hasExplicitValue Fields.nil "count" = false
    ∧ set_then_get Fields.nil HostTy.i32 "count" (HVal.hint 5) = some (HVal.hint 5) :=
  ⟨rfl, rfl, rfl, rfl,
    c3_default_roundtrip.1 Fields.nil HostTy.i32 "count" (HVal.hint 5) rfl rfl rfl rfl⟩
